import Mathlib

/-!
# Verification of the fork-service action

A shallow embedding of the fork-service GitHub action (TypeScript sources:
`src/poll.ts`, `src/main.ts`, `src/cleanup.ts`, `src/api.ts`, `src/types.ts`)
together with proofs about its readiness poller, fork-request builder,
output emission and teardown phase.

Modelling conventions:
* Clock readings (`Date.now()`) and network responses are supplied as
  explicit oracle inputs, one record per loop iteration.
* Observable side effects (`core.info` / `core.warning` / `core.debug`
  observations, network calls, outputs, saved state) are collected in an
  explicit event trace.
* Machine numbers are modelled as `Int` (JavaScript numbers are exact on
  the integer ranges exercised here).
* A thrown JavaScript `Error` is modelled as a `CallResult.threw` carrying
  the error message.
-/

namespace ForkService

/-- Outcome of a call into a collaborator that may throw: either a value or
a thrown error message. -/
inductive CallResult (α : Type) where
  | ok (value : α)
  | threw (msg : String)
deriving DecidableEq, Repr

/-- JavaScript `String.prototype.includes`: substring containment, modelled
as list-infix containment on the character data. -/
def jsIncludes (s pat : String) : Bool := decide (pat.data <:+: s.data)

/-- JavaScript `String.prototype.toLowerCase`, restricted to ASCII letters
(the only characters the action's inputs distinguish case on). -/
def jsToLower (s : String) : String := ⟨s.data.map Char.toLower⟩

/-- `Math.round((d) / 1000)` for an integer millisecond difference `d`:
`Math.round x = ⌊x + 1/2⌋`, and `⌊d/1000 + 1/2⌋ = ⌊(d + 500)/1000⌋`. -/
def jsRoundDiv1000 (d : Int) : Int := (d + 500).fdiv 1000

/-- From `src/poll.ts`: terminal states that indicate the service will not
become ready (`TERMINAL_ERROR_STATES`).  Statuses are modelled as strings
because the poller compares them as strings at runtime, which is what makes
unrecognized values fall through to the in-progress branch. -/
def TERMINAL_ERROR_STATES : List String := ["DELETED", "UNSTABLE"]

/-- The timeout error message thrown by `waitForServiceReady`
(`Timeout: Service ${serviceId} did not become ready within
${timeoutMs / 1000} seconds`). -/
def timeoutMessage (serviceId : String) (timeoutMs : Int) : String :=
  "Timeout: Service " ++ serviceId ++ " did not become ready within "
    ++ toString (timeoutMs / 1000) ++ " seconds"

/-- The terminal-state error message thrown by `waitForServiceReady`
(`Service ${serviceId} entered terminal state: ${service.status}`). -/
def terminalStateMessage (serviceId status : String) : String :=
  "Service " ++ serviceId ++ " entered terminal state: " ++ status

/-- The warning emitted for a transient status-query failure
(`Error checking service status: ${message}. Will retry...`). -/
def transientWarningMessage (msg : String) : String :=
  "Error checking service status: " ++ msg ++ ". Will retry..."

/-- The catch clause of the polling loop rethrows an error iff its message
contains `'terminal state'` or `'Timeout'` (`error.message.includes(...)`). -/
def rethrownByCatch (msg : String) : Bool :=
  jsIncludes msg "terminal state" || jsIncludes msg "Timeout"

/-- One observable event of the polling loop. -/
inductive PollEvent where
  /-- a `getService` status query was issued -/
  | queryIssued
  /-- `core.debug` of the observed status and elapsed seconds -/
  | debugStatus (status : String) (elapsedSec : Int)
  /-- `core.info` that the service is ready -/
  | readyInfo (elapsedSec : Int)
  /-- `core.info` progress observation (status + elapsed seconds) -/
  | progressInfo (status : String) (elapsedSec : Int)
  /-- `core.warning` observation -/
  | warningInfo (msg : String)
  /-- `await sleep(ms)` -/
  | slept (ms : Int)
deriving DecidableEq, Repr

/-- Final outcome of the polling loop. -/
inductive PollResult where
  /-- returned normally: the service became READY -/
  | ready
  /-- threw an `Error` with the given message -/
  | failed (msg : String)
  /-- the oracle input list was exhausted while still polling (the real
  loop is unbounded; a run of `n` iterations is modelled by `n` inputs) -/
  | exhausted
deriving DecidableEq, Repr

/-- The oracle inputs consumed by one iteration of the polling loop:
the `Date.now()` reading at the top of the loop body, the result of the
`getService` query (a status string, or a thrown error message), and the
`Date.now()` reading at the progress-log check. -/
structure IterInput where
  nowAtStart : Int
  query : CallResult String
  nowAtLogCheck : Int
deriving DecidableEq, Repr

/-- The `while (true)` loop of `waitForServiceReady` in `src/poll.ts`,
driven by one `IterInput` per iteration.  `startTime` is the `t0` recorded
at entry and `nextLogTime` the pending progress-log checkpoint. -/
def pollLoop (serviceId : String) (timeoutMs intervalMs logIntervalMs : Int)
    (startTime : Int) (nextLogTime : Int) :
    List IterInput → PollResult × List PollEvent
  | [] => (.exhausted, [])
  | i :: rest =>
    let now := i.nowAtStart
    let elapsed := jsRoundDiv1000 (now - startTime)
    if now - startTime > timeoutMs then
      (.failed (timeoutMessage serviceId timeoutMs), [])
    else
      match i.query with
      | .threw msg =>
        if rethrownByCatch msg then
          (.failed msg, [.queryIssued])
        else
          let k := pollLoop serviceId timeoutMs intervalMs logIntervalMs
            startTime nextLogTime rest
          (k.1, [.queryIssued, .warningInfo (transientWarningMessage msg),
                 .slept intervalMs] ++ k.2)
      | .ok status =>
        if status = "READY" then
          (.ready, [.queryIssued, .debugStatus status elapsed,
                    .readyInfo elapsed])
        else if TERMINAL_ERROR_STATES.contains status then
          -- the throw happens inside the `try`, so it passes through the
          -- catch clause, which rethrows it because the message contains
          -- "terminal state"
          let e := terminalStateMessage serviceId status
          if rethrownByCatch e then
            (.failed e, [.queryIssued, .debugStatus status elapsed])
          else
            let k := pollLoop serviceId timeoutMs intervalMs logIntervalMs
              startTime nextLogTime rest
            (k.1, [.queryIssued, .debugStatus status elapsed,
                   .warningInfo (transientWarningMessage e),
                   .slept intervalMs] ++ k.2)
        else
          let nextLogTime' := if i.nowAtLogCheck ≥ nextLogTime
            then nextLogTime + logIntervalMs else nextLogTime
          let k := pollLoop serviceId timeoutMs intervalMs logIntervalMs
            startTime nextLogTime' rest
          (k.1, [.queryIssued, .debugStatus status elapsed]
            ++ (if i.nowAtLogCheck ≥ nextLogTime
                then [.progressInfo status elapsed] else [])
            ++ [.slept intervalMs] ++ k.2)

/-- `waitForServiceReady` from `src/poll.ts`: records `startTime`,
initializes `nextLogTime = startTime + logIntervalMs` and enters the loop.
(`projectId` and `apiKey` only parametrize the `getService` oracle and are
not modelled.) -/
def waitForServiceReady (serviceId : String)
    (timeoutMs intervalMs logIntervalMs : Int) (startTime : Int)
    (inputs : List IterInput) : PollResult × List PollEvent :=
  pollLoop serviceId timeoutMs intervalMs logIntervalMs startTime
    (startTime + logIntervalMs) inputs

/-! ## Fork phase (`run`) and teardown phase (`post`) from `src/main.ts` -/

/-- `ForkStrategy` from `src/types.ts`. -/
inductive ForkStrategy where
  | NOW
  | LAST_SNAPSHOT
  | PITR
deriving DecidableEq, Repr

/-- The fork request object assembled by `run` (cf. `ForkServiceRequest` in
`src/types.ts`).  Note: the type declaration in `src/types.ts` declares
`cpu_millis?: string` and `memory_gbs?: string`, but `run` in `src/main.ts`
assigns the result of `parseInt(...)` — a number — so the runtime object is
modelled with integer sizing fields.  `free` is assigned by `run` although
it is not declared on the TypeScript interface. -/
structure ForkServiceRequest where
  fork_strategy : ForkStrategy
  name : Option String := none
  cpu_millis : Option Int := none
  memory_gbs : Option Int := none
  free : Option Bool := none
  target_time : Option String := none
deriving DecidableEq, Repr

/-- `Endpoint` from `src/types.ts` (fields used by `run`). -/
structure Endpoint where
  host : String
  port : Int
deriving DecidableEq, Repr

/-- `Service` from `src/types.ts` (fields used by `run`). -/
structure Service where
  service_id : String
  name : String := ""
  status : String := ""
  endpoint : Option Endpoint := none
  initial_password : Option String := none
deriving DecidableEq, Repr

/-- The action inputs as returned by `core.getInput` (which yields `""`
for an input that was not supplied). -/
structure ActionInputs where
  project_id : String := ""
  service_id : String := ""
  api_key : String := ""
  forking_strategy : String := ""
  timestamp : String := ""
  name : String := ""
  cpu_millis : String := ""
  memory_gbs : String := ""
  free : String := ""
  cleanup : String := ""
deriving DecidableEq, Repr

/-- JavaScript `parseInt(s, 10)`: skip leading whitespace, read an optional
sign and then a maximal run of decimal digits; `NaN` (here `none`) when no
digit is read. -/
def jsParseInt (s : String) : Option Int :=
  let cs := s.data.dropWhile (fun c => c = ' ' ∨ c = '\t' ∨ c = '\n' ∨ c = '\r')
  let core : List Char → Option Nat := fun l =>
    let ds := l.takeWhile Char.isDigit
    if ds.isEmpty then none
    else some (ds.foldl (fun a c => a * 10 + (c.toNat - 48)) 0)
  match cs with
  | '-' :: rest => (core rest).map (fun n => -(n : Int))
  | '+' :: rest => (core rest).map (fun n => (n : Int))
  | rest => (core rest).map (fun n => (n : Int))

/-- Error message of `mapForkStrategy` for an unmapped strategy string. -/
def invalidStrategyMessage (strategy : String) : String :=
  "Invalid forking strategy: " ++ strategy
    ++ ". Must be one of: now, last-snapshot, timestamp"

/-- `mapForkStrategy` from `src/main.ts`: case-insensitive dispatch of the
action input to the API enum; a throw is modelled as `CallResult.threw`. -/
def mapForkStrategy (strategy : String) : CallResult ForkStrategy :=
  if jsToLower strategy = "now" then .ok .NOW
  else if jsToLower strategy = "last-snapshot" then .ok .LAST_SNAPSHOT
  else if jsToLower strategy = "timestamp" then .ok .PITR
  else .threw (invalidStrategyMessage strategy)

/-- Error message thrown when the `timestamp` strategy lacks a timestamp. -/
def timestampRequiredMessage : String :=
  "timestamp input is required when using \"timestamp\" forking strategy"

/-- Warning emitted when a timestamp is supplied with a non-PITR strategy. -/
def timestampIgnoredMessage : String :=
  "timestamp input is ignored when not using \"timestamp\" forking strategy"

/-- `Input required and not supplied: ${name}`, thrown by
`core.getInput(name, { required: true })` for a missing input. -/
def requiredInputMessage (inputName : String) : String :=
  "Input required and not supplied: " ++ inputName

/-- One observable effect of the fork phase or the teardown phase. -/
inductive Effect where
  /-- `forkService(projectId, serviceId, request, apiKey)` was called -/
  | forkCall (projectId serviceId : String) (req : ForkServiceRequest)
  /-- `waitForServiceReady(projectId, serviceId, apiKey)` was called -/
  | pollWait (projectId serviceId : String)
  /-- `deleteService(projectId, serviceId, apiKey)` was called -/
  | deleteCall (projectId serviceId : String)
  /-- `core.setOutput(key, value)` -/
  | setOutput (key value : String)
  /-- `core.setSecret(value)`: flag the value for redaction in logs -/
  | setSecret (value : String)
  /-- `core.saveState(key, value)` -/
  | saveState (key value : String)
  /-- `core.setFailed(msg)`: the phase reports failure -/
  | setFailed (msg : String)
  /-- `core.warning(msg)` -/
  | warn (msg : String)
deriving DecidableEq, Repr

/-- The optional-parameter block of `run` in `src/main.ts`: add `name`
verbatim when supplied; parse `cpu_millis` and `memory_gbs` with
`parseInt(..., 10)` and add them only when the parse is not `NaN`; add
`free` as the boolean `value.toLowerCase() === 'true'` when supplied. -/
def applyOptionalFields (inp : ActionInputs)
    (req : ForkServiceRequest) : ForkServiceRequest :=
  let req1 := if inp.name ≠ "" then { req with name := some inp.name }
    else req
  let req2 := if inp.cpu_millis ≠ "" then
      match jsParseInt inp.cpu_millis with
      | some n => { req1 with cpu_millis := some n }
      | none => req1
    else req1
  let req3 := if inp.memory_gbs ≠ "" then
      match jsParseInt inp.memory_gbs with
      | some n => { req2 with memory_gbs := some n }
      | none => req2
    else req2
  if inp.free ≠ "" then
    { req3 with free := some (jsToLower inp.free = "true") }
  else req3

/-- The tail of `run` from the fork-API call onward: submit the fork,
poll for readiness, then emit outputs and save cleanup state.  `advisory`
carries the warning (if any) emitted while the request was assembled;
`forkResp` and `pollResp` are the collaborator responses. -/
def runFromForkCall (inp : ActionInputs) (req : ForkServiceRequest)
    (advisory : List Effect) (forkResp : CallResult Service)
    (pollResp : CallResult Unit) : List Effect :=
  advisory ++
    match forkResp with
    | .threw msg => [.forkCall inp.project_id inp.service_id req,
                     .setFailed msg]
    | .ok svc =>
      [.forkCall inp.project_id inp.service_id req] ++
        match pollResp with
        | .threw msg => [.pollWait inp.project_id svc.service_id,
                         .setFailed msg]
        | .ok _ =>
          [.pollWait inp.project_id svc.service_id,
           .setOutput "service_id" svc.service_id]
            ++ (match svc.endpoint with
                | some ep => [.setOutput "host" ep.host,
                              .setOutput "port" (toString ep.port)]
                | none => [])
            ++ (match svc.initial_password with
                | some pw =>
                  if pw ≠ "" then [.setSecret pw,
                                   .setOutput "initial_password" pw]
                  else []
                | none => [])
            ++ (if jsToLower (if inp.cleanup = "" then "false"
                              else inp.cleanup) = "true" then
                  [.saveState "forked_service_id" svc.service_id,
                   .saveState "project_id" inp.project_id,
                   .saveState "api_key" inp.api_key,
                   .saveState "cleanup" "true"]
                else [])

/-- `run` from `src/main.ts` (the variant with the optional sizing inputs):
read inputs, map the strategy, assemble the request, validate the PITR
timestamp, then hand off to `runFromForkCall`.  Any throw is caught at the
top level and surfaces as a single `setFailed` with the thrown message. -/
def run (inp : ActionInputs) (forkResp : CallResult Service)
    (pollResp : CallResult Unit) : List Effect :=
  if inp.project_id = "" then [.setFailed (requiredInputMessage "project_id")]
  else if inp.service_id = "" then
    [.setFailed (requiredInputMessage "service_id")]
  else if inp.api_key = "" then [.setFailed (requiredInputMessage "api_key")]
  else if inp.forking_strategy = "" then
    [.setFailed (requiredInputMessage "forking-strategy")]
  else
    match mapForkStrategy inp.forking_strategy with
    | .threw msg => [.setFailed msg]
    | .ok forkStrategy =>
      let req4 := applyOptionalFields inp { fork_strategy := forkStrategy }
      if forkStrategy = .PITR then
        if inp.timestamp = "" then [.setFailed timestampRequiredMessage]
        else
          runFromForkCall inp { req4 with target_time := some inp.timestamp }
            [] forkResp pollResp
      else
        runFromForkCall inp req4
          (if inp.timestamp ≠ "" then [.warn timestampIgnoredMessage] else [])
          forkResp pollResp

/-- The cross-phase state as returned by `core.getState` in `post`
(`""` for an entry that was never saved). -/
structure SavedState where
  cleanup : String := ""
  forked_service_id : String := ""
  project_id : String := ""
  api_key : String := ""
deriving DecidableEq, Repr

/-- Warning emitted by `post` when the persisted state is incomplete. -/
def missingStateWarning : String :=
  "Missing required state for cleanup. Skipping service deletion."

/-- Warning emitted by `post` when the delete call throws. -/
def cleanupFailedWarning (msg : String) : String :=
  "Failed to cleanup forked service: " ++ msg

/-- `post` from `src/main.ts` (invoked by `src/cleanup.ts` after the
workflow): delete the forked service when cleanup was enabled; every
failure path degrades to a warning, never to `setFailed`. -/
def post (st : SavedState) (deleteResp : CallResult Unit) : List Effect :=
  if st.cleanup ≠ "true" then []
  else if st.forked_service_id = "" ∨ st.project_id = "" ∨ st.api_key = ""
  then [.warn missingStateWarning]
  else
    match deleteResp with
    | .ok _ => [.deleteCall st.project_id st.forked_service_id]
    | .threw msg => [.deleteCall st.project_id st.forked_service_id,
                     .warn (cleanupFailedWarning msg)]

/-- The three status classes the poller distinguishes, in the order the
code checks them. -/
inductive StatusClass where
  | ready
  | terminalFailure
  | inProgress
deriving DecidableEq, Repr

/-- Classification of an observed status string, following the check order
in `src/poll.ts`. -/
def statusClass (s : String) : StatusClass :=
  if s = "READY" then .ready
  else if TERMINAL_ERROR_STATES.contains s then .terminalFailure
  else .inProgress

/-! ## Helper lemmas -/

/-- A substring of `m` is a substring of `x ++ m ++ y`. -/
theorem jsIncludes_append_middle (x m y pat : String)
    (h : jsIncludes m pat = true) : jsIncludes (x ++ m ++ y) pat = true := by
  unfold jsIncludes at *
  simp only [decide_eq_true_eq] at *
  obtain ⟨s, t, hst⟩ := h
  exact ⟨x.data ++ s, t ++ y.data, by simp [String.data_append, ← hst]⟩

/-- A terminal-state error message always contains `"terminal state"`, so
the catch clause of the polling loop always rethrows it. -/
theorem rethrownByCatch_terminal (sid s : String) :
    rethrownByCatch (terminalStateMessage sid s) = true := by
  have h : jsIncludes (("Service " ++ sid) ++ " entered terminal state: " ++ s)
      "terminal state" = true :=
    jsIncludes_append_middle ("Service " ++ sid) " entered terminal state: " s
      "terminal state" (by decide)
  unfold rethrownByCatch terminalStateMessage
  simp only [← String.append_assoc] at h ⊢
  simp [h]

/-- `statusClass` characterization: the READY class. -/
theorem statusClass_ready_iff (s : String) :
    statusClass s = .ready ↔ s = "READY" := by
  unfold statusClass
  split_ifs <;> simp_all

/-- `statusClass` characterization: the terminal-failure class. -/
theorem statusClass_terminal_iff (s : String) :
    statusClass s = .terminalFailure ↔ s ∈ TERMINAL_ERROR_STATES := by
  unfold statusClass
  have : "READY" ∉ TERMINAL_ERROR_STATES := by decide
  split_ifs with h1 h2 <;> simp_all

/-- `statusClass` characterization: the in-progress class is everything
else. -/
theorem statusClass_inProgress_iff (s : String) :
    statusClass s = .inProgress ↔
      (s ≠ "READY" ∧ TERMINAL_ERROR_STATES.contains s = false) := by
  unfold statusClass
  split_ifs <;> simp_all

/-! ## Claims about the readiness poller -/

/-- **C4.** At the start of each loop iteration, if the elapsed time
`now - t0` strictly exceeds `timeoutMs`, the poller fails with a timeout
error naming the service id and the timeout, and issues no status query in
or after that iteration (the remaining event trace is empty). -/
theorem poller_timeout_check (serviceId : String)
    (timeoutMs intervalMs logIntervalMs t0 nextLog now nlc : Int)
    (q : CallResult String) (rest : List IterInput)
    (ht : now - t0 > timeoutMs) :
    pollLoop serviceId timeoutMs intervalMs logIntervalMs t0 nextLog
      (⟨now, q, nlc⟩ :: rest)
    = (.failed (timeoutMessage serviceId timeoutMs), []) := by
  simp [pollLoop, ht]

/-- Witness for C4: a concrete iteration starting 2000ms after `t0 = 0`
with a 1000ms budget trips the deadline check and issues no query. -/
theorem poller_timeout_check_witness :
    pollLoop "svc" 1000 1000 10000 0 10000 [⟨2000, .ok "READY", 2000⟩]
    = (.failed (timeoutMessage "svc" 1000), []) :=
  poller_timeout_check "svc" 1000 1000 10000 0 10000 2000 2000
    (.ok "READY") [] (by decide)

/-- **C10.** For every `timeoutMs ≥ 0`, including `timeoutMs = 0`, the
poller issues at least one status query before it can fail with a timeout:
the deadline check uses strict inequality and elapsed time is zero at the
first check, so the first iteration always reaches the query (the first
event of the trace is the query). -/
theorem poller_first_iteration_queries (serviceId : String)
    (timeoutMs intervalMs logIntervalMs t0 nlc : Int) (q : CallResult String)
    (rest : List IterInput) (h0 : 0 ≤ timeoutMs) :
    ((waitForServiceReady serviceId timeoutMs intervalMs logIntervalMs t0
        (⟨t0, q, nlc⟩ :: rest)).2).head? = some .queryIssued := by
  unfold waitForServiceReady
  have hnt : ¬ (timeoutMs < (0 : Int)) := by omega
  cases q <;> simp [pollLoop, hnt] <;> split_ifs <;> simp

/-- Witness for C10: with `timeoutMs = 0` the first iteration still issues
its query. -/
theorem poller_first_iteration_queries_witness :
    ((waitForServiceReady "svc" 0 1000 10000 5 [⟨5, .ok "QUEUED", 5⟩]).2).head?
      = some .queryIssued :=
  poller_first_iteration_queries "svc" 0 1000 10000 5 5 (.ok "QUEUED") []
    (by decide)

/-- **C2.** The poller partitions every observed status into exactly three
disjoint classes: READY is its own class, the terminal-failure class is
exactly `TERMINAL_ERROR_STATES`, and everything else (including
unrecognized values) is in-progress.  On the first observed READY it
returns success immediately, with no further queries, sleeps or events,
regardless of the remaining timeout budget; an in-progress status keeps
the poller polling: it suspends for `intervalMs` and continues with the
next query. -/
theorem poller_status_partition (serviceId : String)
    (timeoutMs intervalMs logIntervalMs t0 nextLog now nlc : Int)
    (s : String) (rest : List IterInput)
    (ht : now - t0 ≤ timeoutMs) :
    (statusClass s = .ready ↔ s = "READY")
  ∧ (statusClass s = .terminalFailure ↔ s ∈ TERMINAL_ERROR_STATES)
  ∧ (statusClass s ≠ .ready → statusClass s ≠ .terminalFailure →
      statusClass s = .inProgress)
  ∧ (s = "READY" →
      pollLoop serviceId timeoutMs intervalMs logIntervalMs t0 nextLog
        (⟨now, .ok s, nlc⟩ :: rest)
      = (.ready, [.queryIssued, .debugStatus s (jsRoundDiv1000 (now - t0)),
                  .readyInfo (jsRoundDiv1000 (now - t0))]))
  ∧ (statusClass s = .inProgress →
      pollLoop serviceId timeoutMs intervalMs logIntervalMs t0 nextLog
        (⟨now, .ok s, nlc⟩ :: rest)
      = ((pollLoop serviceId timeoutMs intervalMs logIntervalMs t0
            (if nlc ≥ nextLog then nextLog + logIntervalMs else nextLog)
            rest).1,
         [.queryIssued, .debugStatus s (jsRoundDiv1000 (now - t0))]
           ++ (if nlc ≥ nextLog then
                 [.progressInfo s (jsRoundDiv1000 (now - t0))] else [])
           ++ [.slept intervalMs]
           ++ (pollLoop serviceId timeoutMs intervalMs logIntervalMs t0
                 (if nlc ≥ nextLog then nextLog + logIntervalMs else nextLog)
                 rest).2)) := by
  have hnt : ¬ timeoutMs < now - t0 := by omega
  refine ⟨statusClass_ready_iff s, statusClass_terminal_iff s, ?_, ?_, ?_⟩
  · intro h1 h2
    cases h : statusClass s <;> simp_all
  · intro h1
    subst h1
    simp [pollLoop, hnt]
  · intro h1
    obtain ⟨hr, hc⟩ := (statusClass_inProgress_iff s).mp h1
    have hc' : s ∉ TERMINAL_ERROR_STATES := by simpa using hc
    by_cases h3 : nextLog ≤ nlc <;> simp [pollLoop, hnt, hr, hc, hc', h3]

/-- Witness for C2: concrete first-READY run and a concrete in-progress
step, via `poller_status_partition`. -/
theorem poller_status_partition_witness :
    pollLoop "svc" 600000 1000 10000 0 10000 [⟨0, .ok "READY", 0⟩]
      = (.ready, [.queryIssued, .debugStatus "READY" (jsRoundDiv1000 0),
                  .readyInfo (jsRoundDiv1000 0)])
  ∧ statusClass "OPTIMIZING" = .inProgress :=
  ⟨by
    have h := (poller_status_partition "svc" 600000 1000 10000 0 10000 0 0
      "READY" [] (by decide)).2.2.2.1 rfl
    simpa using h,
   by decide⟩

/-- **C3.** If an observed status is in the terminal-failure set (DELETED
or UNSTABLE), the poller fails with an error naming the service id and the
specific terminal status, and the event trace ends with that observation:
no further status queries are issued, no sleep and no retry happen, for
any remaining oracle inputs. -/
theorem poller_terminal_state (serviceId : String)
    (timeoutMs intervalMs logIntervalMs t0 nextLog now nlc : Int)
    (s : String) (rest : List IterInput)
    (hs : s ∈ TERMINAL_ERROR_STATES) (ht : now - t0 ≤ timeoutMs) :
    pollLoop serviceId timeoutMs intervalMs logIntervalMs t0 nextLog
      (⟨now, .ok s, nlc⟩ :: rest)
    = (.failed (terminalStateMessage serviceId s),
       [.queryIssued, .debugStatus s (jsRoundDiv1000 (now - t0))]) := by
  have hnt : ¬ timeoutMs < now - t0 := by omega
  have hr : s ≠ "READY" := by
    simp only [TERMINAL_ERROR_STATES, List.mem_cons, List.not_mem_nil,
      or_false] at hs
    rcases hs with h | h <;> subst h <;> decide
  simp [pollLoop, hnt, hr, hs, rethrownByCatch_terminal]

/-- Witness for C3: observing DELETED fails at once, naming DELETED, even
though a later READY input was available. -/
theorem poller_terminal_state_witness :
    pollLoop "svc" 600000 1000 10000 0 10000
      [⟨0, .ok "DELETED", 0⟩, ⟨1000, .ok "READY", 1000⟩]
    = (.failed (terminalStateMessage "svc" "DELETED"),
       [.queryIssued, .debugStatus "DELETED" (jsRoundDiv1000 0)]) := by
  have h := poller_terminal_state "svc" 600000 1000 10000 0 10000 0 0
    "DELETED" [⟨1000, .ok "READY", 1000⟩] (by decide) (by decide)
  simpa using h

/-- **C5.** Progress-log checkpoints are anchored to the start time `t0`:
the loop is entered with first checkpoint `t0 + logIntervalMs`; on an
iteration whose status is in-progress, if the current time has reached or
passed the pending checkpoint the poller emits a progress observation
(status and elapsed seconds) and continues with the checkpoint advanced by
exactly one `logIntervalMs` increment (not reset to the current time),
and otherwise it continues with the checkpoint unchanged. -/
theorem poller_log_anchoring (serviceId : String)
    (timeoutMs intervalMs logIntervalMs t0 nextLog now nlc : Int)
    (s : String) (rest inputs : List IterInput)
    (hs : statusClass s = .inProgress) (ht : now - t0 ≤ timeoutMs) :
    (waitForServiceReady serviceId timeoutMs intervalMs logIntervalMs t0
        inputs
      = pollLoop serviceId timeoutMs intervalMs logIntervalMs t0
          (t0 + logIntervalMs) inputs)
  ∧ (nlc ≥ nextLog →
      pollLoop serviceId timeoutMs intervalMs logIntervalMs t0 nextLog
        (⟨now, .ok s, nlc⟩ :: rest)
      = ((pollLoop serviceId timeoutMs intervalMs logIntervalMs t0
            (nextLog + logIntervalMs) rest).1,
         [.queryIssued, .debugStatus s (jsRoundDiv1000 (now - t0)),
          .progressInfo s (jsRoundDiv1000 (now - t0)), .slept intervalMs]
           ++ (pollLoop serviceId timeoutMs intervalMs logIntervalMs t0
                 (nextLog + logIntervalMs) rest).2))
  ∧ (¬ nlc ≥ nextLog →
      pollLoop serviceId timeoutMs intervalMs logIntervalMs t0 nextLog
        (⟨now, .ok s, nlc⟩ :: rest)
      = ((pollLoop serviceId timeoutMs intervalMs logIntervalMs t0
            nextLog rest).1,
         [.queryIssued, .debugStatus s (jsRoundDiv1000 (now - t0)),
          .slept intervalMs]
           ++ (pollLoop serviceId timeoutMs intervalMs logIntervalMs t0
                 nextLog rest).2)) := by
  have hnt : ¬ timeoutMs < now - t0 := by omega
  obtain ⟨hr, hc⟩ := (statusClass_inProgress_iff s).mp hs
  have hc' : s ∉ TERMINAL_ERROR_STATES := by simpa using hc
  refine ⟨rfl, ?_, ?_⟩ <;> intro h3 <;> simp [pollLoop, hnt, hr, hc, hc', h3]

/-- Witness for C5: a concrete iteration at the checkpoint logs progress
and advances the checkpoint by one increment. -/
theorem poller_log_anchoring_witness :
    pollLoop "svc" 600000 1000 10000 0 10000 [⟨10000, .ok "QUEUED", 10000⟩]
      = ((pollLoop "svc" 600000 1000 10000 0 20000 []).1,
         [.queryIssued, .debugStatus "QUEUED" (jsRoundDiv1000 10000),
          .progressInfo "QUEUED" (jsRoundDiv1000 10000), .slept 1000]
           ++ (pollLoop "svc" 600000 1000 10000 0 20000 []).2) := by
  have h := (poller_log_anchoring "svc" 600000 1000 10000 0 10000 10000 10000
    "QUEUED" [] [] (by decide) (by decide)).2.1 (by decide)
  simpa using h

/-- Counterexample to C1 as stated: a status-query failure whose message is
not an error produced by the poller itself (it differs from every
terminal-state message and from the timeout message for this call), yet
whose text happens to contain `"Timeout"`, is rethrown by the catch
clause: the poller fails with it immediately, emits no warning, does not
suspend, and does not retry — a second oracle input with READY is never
queried. -/
theorem poller_transient_counterexample :
    ("API Error (504): Gateway Timeout"
        ≠ terminalStateMessage "svc-1" "DELETED")
  ∧ ("API Error (504): Gateway Timeout"
        ≠ terminalStateMessage "svc-1" "UNSTABLE")
  ∧ ("API Error (504): Gateway Timeout" ≠ timeoutMessage "svc-1" 600000)
  ∧ pollLoop "svc-1" 600000 1000 10000 0 10000
      [⟨0, .threw "API Error (504): Gateway Timeout", 0⟩,
       ⟨1000, .ok "READY", 1000⟩]
    = (.failed "API Error (504): Gateway Timeout", [.queryIssued]) := by
  decide

/-- **C1 (amended).** For every status-query failure during polling whose
error text contains neither `"terminal state"` nor `"Timeout"` as a
substring (the code classifies poller-produced errors by these substring
tests, so query failures whose text contains them are rethrown rather
than retried), the poller treats the failure as transient: it emits a
warning observation including the error text, suspends for `intervalMs`,
and retries; the outcome is whatever the continuation of the loop
produces, so no retry limit other than the overall timeout budget
applies. -/
theorem poller_transient_retry (serviceId : String)
    (timeoutMs intervalMs logIntervalMs t0 nextLog now nlc : Int)
    (msg : String) (rest : List IterInput)
    (ht : now - t0 ≤ timeoutMs)
    (hmsg : rethrownByCatch msg = false) :
    pollLoop serviceId timeoutMs intervalMs logIntervalMs t0 nextLog
      (⟨now, .threw msg, nlc⟩ :: rest)
    = ((pollLoop serviceId timeoutMs intervalMs logIntervalMs t0 nextLog
          rest).1,
       [.queryIssued, .warningInfo (transientWarningMessage msg),
        .slept intervalMs]
         ++ (pollLoop serviceId timeoutMs intervalMs logIntervalMs t0 nextLog
               rest).2) := by
  have hnt : ¬ timeoutMs < now - t0 := by omega
  simp [pollLoop, hnt, hmsg]

/-- Witness for C1 (amended): a concrete transient failure is retried and
the run then succeeds on the next READY observation. -/
theorem poller_transient_retry_witness :
    pollLoop "svc" 600000 1000 10000 0 10000
      [⟨0, .threw "connection refused", 0⟩, ⟨1000, .ok "READY", 1000⟩]
    = (.ready,
       [.queryIssued,
        .warningInfo (transientWarningMessage "connection refused"),
        .slept 1000, .queryIssued, .debugStatus "READY" (jsRoundDiv1000 1000),
        .readyInfo (jsRoundDiv1000 1000)]) := by
  have h := poller_transient_retry "svc" 600000 1000 10000 0 10000 0 0
    "connection refused" [⟨1000, .ok "READY", 1000⟩] (by decide) (by decide)
  rw [h]
  decide

/-! ## Helper lemmas for the fork phase -/

/-- The optional-field block never changes the strategy of the request. -/
theorem applyOptionalFields_fork_strategy (inp : ActionInputs)
    (r : ForkServiceRequest) :
    (applyOptionalFields inp r).fork_strategy = r.fork_strategy := by
  unfold applyOptionalFields
  cases jsParseInt inp.cpu_millis <;> cases jsParseInt inp.memory_gbs <;>
    split_ifs <;> rfl

/-- The optional-field block never changes the target time of the
request. -/
theorem applyOptionalFields_target_time (inp : ActionInputs)
    (r : ForkServiceRequest) :
    (applyOptionalFields inp r).target_time = r.target_time := by
  unfold applyOptionalFields
  cases jsParseInt inp.cpu_millis <;> cases jsParseInt inp.memory_gbs <;>
    split_ifs <;> rfl

/-- Whatever the collaborator responses, `runFromForkCall` issues the fork
request it was handed. -/
theorem runFromForkCall_forkCall_mem (inp : ActionInputs)
    (req : ForkServiceRequest) (advis : List Effect)
    (fr : CallResult Service) (pr : CallResult Unit) :
    Effect.forkCall inp.project_id inp.service_id req
      ∈ runFromForkCall inp req advis fr pr := by
  unfold runFromForkCall
  cases fr <;> simp

/-- When the fork phase reaches the fork-API call (all required inputs
present, strategy valid, PITR timestamp present), `run` is
`runFromForkCall` on the assembled request, with at most the
timestamp-ignored advisory in front. -/
theorem run_reaches_forkCall (inp : ActionInputs) (fs : ForkStrategy)
    (forkResp : CallResult Service) (pollResp : CallResult Unit)
    (hp : inp.project_id ≠ "") (hs : inp.service_id ≠ "")
    (ha : inp.api_key ≠ "") (hf : inp.forking_strategy ≠ "")
    (hmap : mapForkStrategy inp.forking_strategy = .ok fs)
    (hts : fs = .PITR → inp.timestamp ≠ "") :
    ∃ req advis,
      (advis = [] ∨ advis = [Effect.warn timestampIgnoredMessage])
      ∧ req.fork_strategy = fs
      ∧ (fs = .PITR → req.target_time = some inp.timestamp)
      ∧ run inp forkResp pollResp
          = runFromForkCall inp req advis forkResp pollResp := by
  unfold run
  rw [if_neg hp, if_neg hs, if_neg ha, if_neg hf, hmap]
  by_cases hfs : fs = ForkStrategy.PITR
  · subst hfs
    simp only [if_pos rfl, if_neg (hts rfl)]
    refine ⟨{ applyOptionalFields inp { fork_strategy := ForkStrategy.PITR }
        with target_time := some inp.timestamp }, [], Or.inl rfl, ?_,
      fun _ => rfl, ?_⟩
    · exact applyOptionalFields_fork_strategy inp _
    · rfl
  · simp only [if_neg hfs]
    refine ⟨applyOptionalFields inp { fork_strategy := fs },
      (if inp.timestamp ≠ "" then [Effect.warn timestampIgnoredMessage]
       else []), ?_,
      applyOptionalFields_fork_strategy inp _, fun h => absurd h hfs, rfl⟩
    split_ifs <;> simp

/-- Any trace of `runFromForkCall` that reports failure contains no
output: `setFailed` only occurs on the fork-error and poll-error paths,
and those paths emit no `setOutput`. -/
theorem runFromForkCall_failed_no_output (inp : ActionInputs)
    (req : ForkServiceRequest) (advis : List Effect)
    (fr : CallResult Service) (pr : CallResult Unit)
    (hadv : advis = [] ∨ advis = [Effect.warn timestampIgnoredMessage])
    (m : String)
    (hm : Effect.setFailed m ∈ runFromForkCall inp req advis fr pr)
    (k v : String) :
    Effect.setOutput k v ∉ runFromForkCall inp req advis fr pr := by
  have hadvout : Effect.setOutput k v ∉ advis := by
    rcases hadv with h | h <;> subst h <;> simp
  have hadvfail : Effect.setFailed m ∉ advis := by
    rcases hadv with h | h <;> subst h <;> simp
  cases fr with
  | threw msg =>
    unfold runFromForkCall
    simp [hadvout]
  | ok svc =>
    cases pr with
    | threw msg =>
      unfold runFromForkCall
      simp [hadvout]
    | ok u =>
      exfalso
      obtain ⟨sid, nm, stt, epo, ipw⟩ := svc
      unfold runFromForkCall at hm
      rcases epo with _ | ep <;> rcases ipw with _ | pw <;>
        split_ifs at hm <;> simp at hm <;> exact hadvfail hm

/-! ## Claims about the fork phase and teardown -/

/-- **C6.** For every strategy input not case-insensitively equal to
`"now"`, `"last-snapshot"` or `"timestamp"`, the fork phase fails with a
validation error naming the offending value and issues zero network
calls; for strategy `"timestamp"` with an empty target timestamp it fails
with a validation error before any network call; and with a non-empty
timestamp the outgoing request carries `fork_strategy = PITR` and the
given `target_time`. -/
theorem fork_strategy_validation (inp : ActionInputs)
    (forkResp : CallResult Service) (pollResp : CallResult Unit)
    (hp : inp.project_id ≠ "") (hs : inp.service_id ≠ "")
    (ha : inp.api_key ≠ "") (hf : inp.forking_strategy ≠ "") :
    ((jsToLower inp.forking_strategy ≠ "now" ∧
      jsToLower inp.forking_strategy ≠ "last-snapshot" ∧
      jsToLower inp.forking_strategy ≠ "timestamp") →
       run inp forkResp pollResp
         = [.setFailed (invalidStrategyMessage inp.forking_strategy)]
       ∧ ∀ p s req, Effect.forkCall p s req ∉ run inp forkResp pollResp)
  ∧ (jsToLower inp.forking_strategy = "timestamp" → inp.timestamp = "" →
       run inp forkResp pollResp = [.setFailed timestampRequiredMessage]
       ∧ ∀ p s req, Effect.forkCall p s req ∉ run inp forkResp pollResp)
  ∧ (jsToLower inp.forking_strategy = "timestamp" → inp.timestamp ≠ "" →
       ∃ req, Effect.forkCall inp.project_id inp.service_id req
                ∈ run inp forkResp pollResp
         ∧ req.fork_strategy = .PITR
         ∧ req.target_time = some inp.timestamp) := by
  refine ⟨?_, ?_, ?_⟩
  · rintro ⟨h1, h2, h3⟩
    have hmap : mapForkStrategy inp.forking_strategy
        = .threw (invalidStrategyMessage inp.forking_strategy) := by
      unfold mapForkStrategy
      rw [if_neg h1, if_neg h2, if_neg h3]
    constructor
    · simp [run, hp, hs, ha, hf, hmap]
    · simp [run, hp, hs, ha, hf, hmap]
  · intro h hts
    have hmap : mapForkStrategy inp.forking_strategy = .ok .PITR := by
      simp [mapForkStrategy, h]
    constructor
    · simp [run, hp, hs, ha, hf, hmap, hts]
    · simp [run, hp, hs, ha, hf, hmap, hts]
  · intro h hts
    have hmap : mapForkStrategy inp.forking_strategy = .ok .PITR := by
      simp [mapForkStrategy, h]
    obtain ⟨req, advis, hadv, hstrat, htt, hrun⟩ :=
      run_reaches_forkCall inp .PITR forkResp pollResp hp hs ha hf hmap
        (fun _ => hts)
    refine ⟨req, ?_, hstrat, htt rfl⟩
    rw [hrun]
    exact runFromForkCall_forkCall_mem inp req advis forkResp pollResp

/-- Witness for C6: each of the three branches at concrete inputs. -/
theorem fork_strategy_validation_witness :
    (run { project_id := "p", service_id := "s", api_key := "k",
           forking_strategy := "bogus" }
       (.ok { service_id := "f" }) (.ok ())
     = [.setFailed (invalidStrategyMessage "bogus")])
  ∧ (run { project_id := "p", service_id := "s", api_key := "k",
           forking_strategy := "timestamp" }
       (.ok { service_id := "f" }) (.ok ())
     = [.setFailed timestampRequiredMessage])
  ∧ (∃ req, Effect.forkCall "p" "s" req
        ∈ run { project_id := "p", service_id := "s", api_key := "k",
                forking_strategy := "Timestamp",
                timestamp := "2025-10-01T15:29:00Z" }
            (.ok { service_id := "f" }) (.ok ())
      ∧ req.fork_strategy = .PITR
      ∧ req.target_time = some "2025-10-01T15:29:00Z") := by
  refine ⟨?_, ?_, ?_⟩
  · exact ((fork_strategy_validation
      { project_id := "p", service_id := "s", api_key := "k",
        forking_strategy := "bogus" }
      (.ok { service_id := "f" }) (.ok ()) (by decide) (by decide)
      (by decide) (by decide)).1 (by decide)).1
  · exact ((fork_strategy_validation
      { project_id := "p", service_id := "s", api_key := "k",
        forking_strategy := "timestamp" }
      (.ok { service_id := "f" }) (.ok ()) (by decide) (by decide)
      (by decide) (by decide)).2.1 (by decide) rfl).1
  · exact (fork_strategy_validation
      { project_id := "p", service_id := "s", api_key := "k",
        forking_strategy := "Timestamp", timestamp := "2025-10-01T15:29:00Z" }
      (.ok { service_id := "f" }) (.ok ()) (by decide) (by decide)
      (by decide) (by decide)).2.2 (by decide) (by decide)

/-- **C7 (the code evaluated at the failing input).** With
`cpu_millis = "shared"` and `memory_gbs = "shared"` the fork proceeds,
but `parseInt("shared", 10)` is `NaN`, so both sizing fields are silently
omitted from the outgoing request — they are not sent as `"shared"` as
the claim (and the repository's own tests and the `cpu_millis?: string` /
`memory_gbs?: string` type declarations) require.  A numeric string such
as `"2000"` parses and is sent as the number 2000. -/
theorem sizing_shared_dropped :
    run { project_id := "project-456", service_id := "service-789",
          api_key := "k", forking_strategy := "now",
          cpu_millis := "shared", memory_gbs := "shared" }
      (.ok { service_id := "forked-1", status := "QUEUED" }) (.ok ())
    = [.forkCall "project-456" "service-789"
         { fork_strategy := .NOW, name := none, cpu_millis := none,
           memory_gbs := none, free := none, target_time := none },
       .pollWait "project-456" "forked-1",
       .setOutput "service_id" "forked-1"]
  ∧ jsParseInt "shared" = none
  ∧ jsParseInt "2000" = some 2000 := by
  decide

/-- Counterexample to C8 as stated: a fully successful fork (the returned
service carries a name, an endpoint and an initial password) emits
`service_id`, `host`, `port` and `initial_password` — but no `name`
output, although the claim lists `name` among the emitted outputs. -/
theorem run_outputs_counterexample :
    run { project_id := "project-456", service_id := "service-789",
          api_key := "public-key:secret-key", forking_strategy := "now" }
      (.ok { service_id := "forked-service-123", name := "test-fork",
             status := "QUEUED",
             endpoint := some { host := "test-fork.timescaledb.io",
                                port := 5432 },
             initial_password := some "test-password-123" })
      (.ok ())
    = [.forkCall "project-456" "service-789" { fork_strategy := .NOW },
       .pollWait "project-456" "forked-service-123",
       .setOutput "service_id" "forked-service-123",
       .setOutput "host" "test-fork.timescaledb.io",
       .setOutput "port" "5432",
       .setSecret "test-password-123",
       .setOutput "initial_password" "test-password-123"]
  ∧ Effect.setOutput "name" "test-fork"
      ∉ run { project_id := "project-456", service_id := "service-789",
              api_key := "public-key:secret-key", forking_strategy := "now" }
          (.ok { service_id := "forked-service-123", name := "test-fork",
                 status := "QUEUED",
                 endpoint := some { host := "test-fork.timescaledb.io",
                                    port := 5432 },
                 initial_password := some "test-password-123" })
          (.ok ()) := by
  decide

/-- **C8 (amended).** When the fork phase succeeds, the orchestrator emits
the service id, then `host` and `port` when the service has an endpoint,
then the initial credential when it is present and non-empty — flagging
the credential for redaction (`setSecret`) immediately before outputting
it — and it never emits a `name` output; on any validation, transport, or
poller failure (any trace containing `setFailed`) no outputs are
emitted. -/
theorem run_outputs (inp : ActionInputs) (svc : Service) (fs : ForkStrategy)
    (hp : inp.project_id ≠ "") (hs : inp.service_id ≠ "")
    (ha : inp.api_key ≠ "") (hf : inp.forking_strategy ≠ "")
    (hmap : mapForkStrategy inp.forking_strategy = .ok fs)
    (hts : fs = .PITR → inp.timestamp ≠ "") :
    (∃ req advis,
      (advis = [] ∨ advis = [Effect.warn timestampIgnoredMessage])
      ∧ run inp (.ok svc) (.ok ())
        = advis ++ [.forkCall inp.project_id inp.service_id req,
                    .pollWait inp.project_id svc.service_id,
                    .setOutput "service_id" svc.service_id]
            ++ (match svc.endpoint with
                | some ep => [.setOutput "host" ep.host,
                              .setOutput "port" (toString ep.port)]
                | none => [])
            ++ (match svc.initial_password with
                | some pw =>
                  if pw ≠ "" then [.setSecret pw,
                                   .setOutput "initial_password" pw]
                  else []
                | none => [])
            ++ (if jsToLower (if inp.cleanup = "" then "false"
                              else inp.cleanup) = "true" then
                  [.saveState "forked_service_id" svc.service_id,
                   .saveState "project_id" inp.project_id,
                   .saveState "api_key" inp.api_key,
                   .saveState "cleanup" "true"]
                else []))
  ∧ (∀ v, Effect.setOutput "name" v ∉ run inp (.ok svc) (.ok ()))
  ∧ (∀ (forkResp : CallResult Service) (pollResp : CallResult Unit)
        (m : String),
      Effect.setFailed m ∈ run inp forkResp pollResp →
      ∀ k v, Effect.setOutput k v ∉ run inp forkResp pollResp) := by
  obtain ⟨req, advis, hadv, hstrat, htt, hrun⟩ :=
    run_reaches_forkCall inp fs (.ok svc) (.ok ()) hp hs ha hf hmap hts
  have hshape : run inp (.ok svc) (.ok ())
      = advis ++ [.forkCall inp.project_id inp.service_id req,
                  .pollWait inp.project_id svc.service_id,
                  .setOutput "service_id" svc.service_id]
          ++ (match svc.endpoint with
              | some ep => [.setOutput "host" ep.host,
                            .setOutput "port" (toString ep.port)]
              | none => [])
          ++ (match svc.initial_password with
              | some pw =>
                if pw ≠ "" then [.setSecret pw,
                                 .setOutput "initial_password" pw]
                else []
              | none => [])
          ++ (if jsToLower (if inp.cleanup = "" then "false"
                            else inp.cleanup) = "true" then
                [.saveState "forked_service_id" svc.service_id,
                 .saveState "project_id" inp.project_id,
                 .saveState "api_key" inp.api_key,
                 .saveState "cleanup" "true"]
              else []) := by
    rw [hrun]
    unfold runFromForkCall
    simp [List.append_assoc]
  refine ⟨⟨req, advis, hadv, hshape⟩, ?_, ?_⟩
  · intro v
    rw [hshape]
    have hadvname : Effect.setOutput "name" v ∉ advis := by
      rcases hadv with h | h <;> subst h <;> simp
    clear hshape hrun
    obtain ⟨sid, nm, stt, epo, ipw⟩ := svc
    rcases epo with _ | ep <;> rcases ipw with _ | pw <;>
      split_ifs <;> simp [hadvname]
  · intro forkResp pollResp m hm k v
    obtain ⟨req', advis', hadv', _, _, hrun'⟩ :=
      run_reaches_forkCall inp fs forkResp pollResp hp hs ha hf hmap hts
    rw [hrun'] at hm ⊢
    exact runFromForkCall_failed_no_output inp req' advis' forkResp pollResp
      hadv' m hm k v

/-- Witness for C8 (amended): concrete successful run, concrete absent
`name` output, and a concrete poller failure with no outputs. -/
theorem run_outputs_witness :
    (∃ req advis,
      (advis = [] ∨ advis = [Effect.warn timestampIgnoredMessage])
      ∧ run { project_id := "p", service_id := "s", api_key := "k",
              forking_strategy := "now" }
          (.ok { service_id := "f" }) (.ok ())
        = advis ++ [.forkCall "p" "s" req, .pollWait "p" "f",
                    .setOutput "service_id" "f"] ++ [] ++ [] ++ [])
  ∧ Effect.setOutput "name" "f"
      ∉ run { project_id := "p", service_id := "s", api_key := "k",
              forking_strategy := "now" } (.ok { service_id := "f" }) (.ok ())
  ∧ Effect.setOutput "service_id" "f"
      ∉ run { project_id := "p", service_id := "s", api_key := "k",
              forking_strategy := "now" } (.ok { service_id := "f" })
          (.threw "Timeout: poll failed") := by
  have h := run_outputs
    { project_id := "p", service_id := "s", api_key := "k",
      forking_strategy := "now" }
    { service_id := "f" } .NOW (by decide) (by decide) (by decide)
    (by decide) (by decide) (by intro h; cases h)
  refine ⟨?_, h.2.1 "f", ?_⟩
  · obtain ⟨req, advis, hadv, hshape⟩ := h.1
    exact ⟨req, advis, hadv, by simpa using hshape⟩
  · exact h.2.2 (.ok { service_id := "f" }) (.threw "Timeout: poll failed")
      "Timeout: poll failed" (by decide) "service_id" "f"

/-- **C9.** The teardown phase never reports failure: with the cleanup
flag unset or not `"true"` it makes no delete call and does nothing; with
the flag `"true"` but a missing persisted field it emits a warning and
makes no delete call; and when the delete call itself fails it emits a
warning with the error text — in every case the trace contains no
`setFailed`. -/
theorem teardown_never_fails (st : SavedState)
    (deleteResp : CallResult Unit) :
    (∀ msg, Effect.setFailed msg ∉ post st deleteResp)
  ∧ (st.cleanup ≠ "true" → post st deleteResp = [])
  ∧ (st.cleanup = "true" →
      (st.forked_service_id = "" ∨ st.project_id = "" ∨ st.api_key = "") →
      post st deleteResp = [.warn missingStateWarning])
  ∧ (st.cleanup = "true" → st.forked_service_id ≠ "" →
      st.project_id ≠ "" → st.api_key ≠ "" →
      ∀ msg, deleteResp = .threw msg →
      post st deleteResp
        = [.deleteCall st.project_id st.forked_service_id,
           .warn (cleanupFailedWarning msg)]) := by
  refine ⟨?_, ?_, ?_, ?_⟩
  · intro msg
    unfold post
    split_ifs <;> cases deleteResp <;> simp
  · intro h
    simp [post, h]
  · intro h1 h2
    unfold post
    rw [if_neg (by simp [h1]), if_pos h2]
  · intro h1 h2 h3 h4 msg h5
    subst h5
    unfold post
    rw [if_neg (by simp [h1]), if_neg (by simp [h2, h3, h4])]

/-- Witness for C9: the three teardown scenarios at concrete states. -/
theorem teardown_never_fails_witness :
    (post { cleanup := "false" } (.ok ()) = [])
  ∧ (post { cleanup := "true", forked_service_id := "f", project_id := "p" }
       (.ok ()) = [.warn missingStateWarning])
  ∧ (post { cleanup := "true", forked_service_id := "f", project_id := "p",
            api_key := "k" } (.threw "boom")
       = [.deleteCall "p" "f", .warn (cleanupFailedWarning "boom")]) :=
  ⟨(teardown_never_fails { cleanup := "false" } (.ok ())).2.1 (by decide),
   (teardown_never_fails
      { cleanup := "true", forked_service_id := "f", project_id := "p" }
      (.ok ())).2.2.1 rfl (by simp),
   (teardown_never_fails
      { cleanup := "true", forked_service_id := "f", project_id := "p",
        api_key := "k" } (.threw "boom")).2.2.2 rfl (by decide) (by decide)
     (by decide) "boom" rfl⟩

end ForkService
